import Mathlib

/-!
Verification development for the NatVsTech particle-classification pipeline
(`NatVsTech.py`).  The pandas/sklearn program is shallowly embedded:

* a pandas DataFrame becomes a `Table`: a list of column names together with
  rows of optional rationals (`none` models a missing value / NaN);
* numeric matrices become `List (List ℚ)`, label vectors `List ℚ`;
* the sklearn collaborators (gradient-boosted classifier, RFECV support
  computation, grid search, stratified splits) are black boxes per the spec,
  modelled as function-valued parameters bundled in environment structures;
  fitting is modelled as a pure function, so two fits of the same
  configuration on the same data denote the same model;
* fallible pandas/sklearn operations (column lookup, `drop` on a missing
  label, prediction on data of the wrong width) return `Except String`.
-/

/-- A pandas DataFrame: named columns and rows of optional rational cells.
A `none` cell models NaN / a missing value. -/
structure Table where
  cols : List String
  rows : List (List (Option ℚ))
deriving DecidableEq

/-- A table is well formed when every row has one cell per column
(always true of a real DataFrame). -/
def Table.wf (t : Table) : Bool :=
  t.rows.all (fun r => r.length == t.cols.length)

/-- Value of the cell of row `r` in the column named `c` (given the column
list `cols`), `none` when the column is absent or the cell is missing. -/
def rowCell (cols : List String) (r : List (Option ℚ)) (c : String) : Option ℚ :=
  match cols.findIdx? (fun n => n == c) with
  | some i => r.getD i none
  | none => none

/-- A row contains a negative value in some column. -/
def rowHasNegative (r : List (Option ℚ)) : Bool :=
  r.any (fun c => match c with | some v => decide (v < 0) | none => false)

/-- Every cell of the row is present (no NaN). -/
def rowAllPresent (r : List (Option ℚ)) : Bool :=
  r.all (fun c => c.isSome)

/-- `filter_negative` (source line 31): `data[data >= 0].dropna()`.
The elementwise mask turns every negative cell into NaN, and `dropna`
then drops every row holding any NaN, so a row survives exactly when all
of its cells are present and nonnegative. -/
def filter_negative (t : Table) : Table :=
  { t with rows := t.rows.filter (fun r =>
      r.all (fun c => match c with | some v => decide (0 ≤ v) | none => false)) }

/-- `apply_detection_threshold` (source lines 34-39):
`data[data[isotope_trigger] >= threshold_value].dropna()`.
Pandas raises a `KeyError` when the trigger column is absent; otherwise a
row survives exactly when its trigger cell is present and at least the
threshold and no cell of the row is missing. -/
def apply_detection_threshold (t : Table) (isotope_trigger : String)
    (threshold_value : ℚ) : Except String Table :=
  if t.cols.contains isotope_trigger then
    .ok { t with rows := t.rows.filter (fun r =>
      (match rowCell t.cols r isotope_trigger with
       | some v => decide (threshold_value ≤ v)
       | none => false) && rowAllPresent r) }
  else .error "KeyError"

/-- The rows of `t` whose trigger cell is present and at least `v`
(the set the spec says a threshold filter configured with `v` keeps). -/
def rowsWithTriggerAtLeast (t : Table) (trig : String) (v : ℚ) :
    List (List (Option ℚ)) :=
  t.rows.filter (fun r =>
    match rowCell t.cols r trig with
    | some w => decide (v ≤ w)
    | none => false)

/-! ## Inference Applier (`apply_trained_classification`, source lines 125-227) -/

/-- Source line 169: `set(list(self.training_data)) - set(critical_isotopes)`.
The columns to drop are the training-data columns that are not critical;
a run column that never appeared in the training data is never in this set. -/
def non_crit_isotopes (trainingDataCols critical_isotopes : List String) :
    List String :=
  trainingDataCols.filter (fun c => !(critical_isotopes.contains c))

/-- `DataFrame.drop(labels, axis=1)`: removes the named columns, raising a
`KeyError` when any label is absent from the table. -/
def df_drop (t : Table) (labels : List String) : Except String Table :=
  if labels.all (fun c => t.cols.contains c) then
    .ok { cols := t.cols.filter (fun c => !(labels.contains c)),
          rows := t.rows.map (fun r =>
            ((t.cols.zip r).filter (fun p => !(labels.contains p.1))).map
              (fun p => p.2)) }
  else .error "KeyError"

/-- The critical-isotope restriction step of `apply_trained_classification`
(source lines 168-170). -/
def critical_isotope_drop (trainingDataCols critical_isotopes : List String)
    (t : Table) : Except String Table :=
  df_drop t (non_crit_isotopes trainingDataCols critical_isotopes)

/-- The inference-side call of the detection-threshold filter
(source line 165): `apply_detection_threshold` is invoked with only the
trigger channel, so the default `threshold_value=0` is always used —
`apply_trained_classification` has no threshold parameter to forward. -/
def inference_threshold_step (isotope_trigger : String) (t : Table) :
    Except String Table :=
  apply_detection_threshold t isotope_trigger 0

/-- The fitted-classifier collaborator as seen by the Inference Applier:
label prediction, per-class probabilities `(class-0, class-1)` per row,
and the feature count recorded at fit time (sklearn rejects prediction
input whose width differs from it). -/
structure InferEnv where
  predict : List (List ℚ) → List ℚ
  predictProba : List (List ℚ) → List (ℚ × ℚ)
  n_features : Nat

/-- Configuration flags of `apply_trained_classification`, with the source
defaults.  `track_class_probabilities` models the two-element list default
`[0.1, 0.1]` (`none` models a falsy value); `critical_isotopes` models the
`False`-or-array sentinel. -/
structure InferCfg where
  track_class_probabilities : Option (ℚ × ℚ) := some ((1 : ℚ)/10, (1 : ℚ)/10)
  isotope_trigger : String := "140Ce"
  filter_neg : Bool := true
  apply_threshold : Bool := true
  critical_isotopes : Option (List String) := none
  track_particle_counts : Bool := true

/-- One row of the output summary table (source lines 208-215). -/
structure SummaryRow where
  run_name : String
  total_particle_count : Nat
  nat_particle_count : Nat
  tec_particle_count : Nat
  nat_above_proba_thresh : Option Int
  tech_above_proba_thresh : Option Int
deriving DecidableEq

/-- `list(preds).count(c)` (source lines 204-205). -/
def countLabel (preds : List ℚ) (c : ℚ) : Nat :=
  (preds.filter (fun x => x == c)).length

/-- `len(np.where(xs <= b)[0])` (source lines 193-197). -/
def countLe (xs : List ℚ) (b : ℚ) : Nat :=
  (xs.filter (fun x => decide (x ≤ b))).length

/-- Source line 193: count of rows whose class-0 probability is at most 0.5. -/
def total_natural_by_proba (proba : List (ℚ × ℚ)) : Nat :=
  countLe (proba.map (fun p => p.1)) ((1 : ℚ)/2)

/-- Source line 194: count of rows whose class-1 probability is at most 0.5. -/
def total_technical_by_proba (proba : List (ℚ × ℚ)) : Nat :=
  countLe (proba.map (fun p => p.2)) ((1 : ℚ)/2)

/-- Source lines 196 and 199: the "natural above probability threshold"
count is the difference of two counts and is an integer that the source
never clamps. -/
def nat_above_proba_thresh_count (proba : List (ℚ × ℚ)) (p0 : ℚ) : Int :=
  (total_natural_by_proba proba : Int)
    - (countLe (proba.map (fun p => p.1)) p0 : Int)

/-- Source lines 197 and 200: the symmetric "technical" count. -/
def tech_above_proba_thresh_count (proba : List (ℚ × ℚ)) (p1 : ℚ) : Int :=
  (total_technical_by_proba proba : Int)
    - (countLe (proba.map (fun p => p.2)) p1 : Int)

/-- Data conditioning applied to one run (source lines 160-170): negative
filter, then threshold filter (always with the default threshold 0), then
the critical-isotope restriction keyed on the instance training-data
columns.  The Python truthiness test `if critical_isotopes:` is false for
`False` and for an empty array. -/
def conditionedTable (cfg : InferCfg) (trainingDataCols : List String)
    (t : Table) : Except String Table := do
  let t1 := if cfg.filter_neg then filter_negative t else t
  let t2 ← if cfg.apply_threshold then
      inference_threshold_step cfg.isotope_trigger t1
    else .ok t1
  match cfg.critical_isotopes with
  | some crit =>
      if crit.isEmpty then .ok t2
      else critical_isotope_drop trainingDataCols crit t2
  | none => .ok t2

/-- `test_data.as_matrix()` followed by the input validation sklearn's
`predict` performs (source lines 176-179): the conversion itself never
consults the training schema; prediction then rejects input holding NaN,
with zero rows, or whose column count differs from the feature count seen
at fit time — the only schema-like check is the count. -/
def as_matrix_checked (nfeat : Nat) (t : Table) :
    Except String (List (List ℚ)) :=
  if t.rows.all rowAllPresent then
    if t.rows.isEmpty then .error "Found array with 0 samples"
    else if t.rows.all (fun r => r.length == nfeat) then
      .ok (t.rows.map (fun r => r.filterMap (fun c => c)))
    else .error "Number of features of the input must equal training"
  else .error "Input contains NaN"

/-- The conditioned numeric matrix of one run, as handed to the classifier. -/
def conditionedX (env : InferEnv) (cfg : InferCfg)
    (trainingDataCols : List String) (t : Table) :
    Except String (List (List ℚ)) :=
  conditionedTable cfg trainingDataCols t >>= as_matrix_checked env.n_features

/-- The per-run body of `apply_trained_classification` (source lines
149-223): condition the run table, predict labels and probabilities,
derive the probability-threshold counts when tracked, and build the
summary row when particle counts are tracked (`none` when they are not,
as the source appends no row then). -/
def apply_trained_classification_run (env : InferEnv) (cfg : InferCfg)
    (trainingDataCols : List String) (run_name : String) (t : Table) :
    Except String (Option SummaryRow) := do
  let X ← conditionedX env cfg trainingDataCols t
  let preds := env.predict X
  let proba := env.predictProba X
  let probaCounts : Option (Int × Int) :=
    match cfg.track_class_probabilities with
    | some pq => some (nat_above_proba_thresh_count proba pq.1,
                       tech_above_proba_thresh_count proba pq.2)
    | none => none
  if cfg.track_particle_counts then
    let natc := countLabel preds 1
    let tecc := countLabel preds 0
    .ok (some { run_name := run_name
                total_particle_count := natc + tecc
                nat_particle_count := natc
                tec_particle_count := tecc
                nat_above_proba_thresh := probaCounts.map (fun p => p.1)
                tech_above_proba_thresh := probaCounts.map (fun p => p.2) })
  else .ok none

/-- The whole run loop: runs are processed in input order and the first
per-run failure aborts the batch (the source has no per-file error
isolation); rows of runs with particle counting off are absent. -/
def apply_trained_classification (env : InferEnv) (cfg : InferCfg)
    (trainingDataCols : List String) (runs : List (String × Table)) :
    Except String (List SummaryRow) := do
  let rows ← runs.mapM (fun rt =>
    apply_trained_classification_run env cfg trainingDataCols rt.1 rt.2)
  .ok (rows.filterMap (fun r => r))

/-! ## Hyperparameter Searcher (`find_optimum_gbc_parameters`, lines 92-117) -/

/-- The classifier hyperparameters the pipeline manipulates: the boosting
stage count plus representative further grid-searched fields. -/
structure GbcParams where
  n_estimators : Nat
  learning_rate : ℚ
  max_depth : Nat
deriving DecidableEq

/-- A `GradientBoostingClassifier` object: its construction parameters and
the data it was fitted on (`none` while unfit — construction never fits). -/
structure GbcClassifier where
  params : GbcParams
  fittedOn : Option (List (List ℚ) × List ℚ)
deriving DecidableEq

/-- Source lines 109-117 of `find_optimum_gbc_parameters`, after the
grid-search collaborator has produced `grid_searcher.best_params_`
(taken here as the argument `gbc_best_params`):
`if self.optimum_boosting_stages:` is a Python truthiness test on the
stage index, so the `n_estimators` override is applied exactly when the
stored optimum stage count is nonzero, and the function returns a freshly
constructed, unfit `GradientBoostingClassifier(**best_params)`. -/
def find_optimum_gbc_parameters (gbc_best_params : GbcParams)
    (optimum_boosting_stages : Nat) : GbcClassifier :=
  let best :=
    if optimum_boosting_stages ≠ 0 then
      { gbc_best_params with n_estimators := optimum_boosting_stages }
    else gbc_best_params
  { params := best, fittedOn := none }

/-! ## Feature Eliminator (`rfecv_feature_identify`, source lines 229-375)

The sklearn collaborators are black boxes (spec section 1): fitting is a
pure function of the parameters and the data, so the clone of the
estimator that `RFECV.fit` refits on the support-reduced training data
and the explicit `gbc.fit(X_trimTrainSet, y_train)` of source line 353
denote the same fitted model, and `rfecv.predict(X_holdout)` (line 358)
equals that model applied to the support-reduced holdout set. -/

/-- The sklearn collaborators used inside `rfecv_feature_identify`:
`findStages` is the stage count returned by `find_min_boosting_stages`
for the given base parameters and data, `rfeSupport` / `rfeRanking` /
`rfeGridScores` the outputs of `RFECV.fit` on the given training
partition, and `fitPredict p Xtr ytr Xte` the predictions on `Xte` of a
classifier with parameters `p` fitted on `(Xtr, ytr)`. -/
structure MLEnv where
  findStages : GbcParams → List (List ℚ) → List ℚ → Nat
  rfeSupport : GbcParams → List (List ℚ) → List ℚ → List Bool
  rfeRanking : GbcParams → List (List ℚ) → List ℚ → List Nat
  rfeGridScores : GbcParams → List (List ℚ) → List ℚ → List ℚ
  fitPredict : GbcParams → List (List ℚ) → List ℚ → List (List ℚ) → List ℚ
  featureImportances : GbcParams → List (List ℚ) → List ℚ → List ℚ

/-- The two per-split reoptimization flags of `rfecv_feature_identify`. -/
structure RfecvCfg where
  find_min_boosting_stages : Bool := false
  cv_grid_search : Bool := false

/-- `X_all[index_list]`: row selection by index list. -/
def takeRows (X : List (List ℚ)) (idx : List Nat) : List (List ℚ) :=
  idx.map (fun i => X.getD i [])

/-- `y_all[index_list]`: label selection by index list. -/
def takeVals (y : List ℚ) (idx : List Nat) : List ℚ :=
  idx.map (fun i => y.getD i 0)

/-- `rfecv.transform(X)`: projection of every row onto the channels the
support mask retains. -/
def rfecv_transform (supPort : List Bool) (X : List (List ℚ)) :
    List (List ℚ) :=
  X.map (fun r => ((supPort.zip r).filter (fun p => p.1)).map (fun p => p.2))

/-- Source lines 331-338: walk the support mask and collect the feature
names flagged true, in original order. -/
def selectNames (supPort : List Bool) (feature_names : List String) :
    List String :=
  ((supPort.zip feature_names).filter (fun p => p.1)).map (fun p => p.2)

/-- The number of true entries of a support mask (`rfecv.n_features_`). -/
def countTrue (supPort : List Bool) : Nat :=
  (supPort.filter (fun b => b)).length

/-- `metrics.mean_absolute_error` (source line 367). -/
def mean_absolute_error (yTrue yPred : List ℚ) : ℚ :=
  (((yTrue.zip yPred).map (fun p => |p.1 - p.2|)).sum) / (yTrue.length : ℚ)

/-- `metrics.r2_score` (source line 365). -/
def r2_score (yTrue yPred : List ℚ) : ℚ :=
  let m := yTrue.sum / (yTrue.length : ℚ)
  1 - (((yTrue.zip yPred).map (fun p => (p.1 - p.2) ^ 2)).sum)
      / ((yTrue.map (fun v => (v - m) ^ 2)).sum)

/-- The harmonic-mean F1 of one class: precision and recall from the
true-positive / false-positive / false-negative counts (0 on an empty
denominator, as sklearn scores an absent class 0). -/
def f1ForClass (yTrue yPred : List ℚ) (c : ℚ) : ℚ :=
  let pairs := yTrue.zip yPred
  let tp := ((pairs.filter (fun p => p.1 == c && p.2 == c)).length : ℚ)
  let fp := ((pairs.filter (fun p => !(p.1 == c) && p.2 == c)).length : ℚ)
  let fn := ((pairs.filter (fun p => p.1 == c && !(p.2 == c))).length : ℚ)
  let prec := tp / (tp + fp)
  let recl := tp / (tp + fn)
  2 * prec * recl / (prec + recl)

/-- `metrics.f1_score(..., average='weighted')` (source lines 361-362):
the per-class F1 scores averaged with the class supports as weights. -/
def f1_weighted (yTrue yPred : List ℚ) : ℚ :=
  ((yTrue ++ yPred).dedup.map (fun c =>
    ((yTrue.filter (fun v => v == c)).length : ℚ) * f1ForClass yTrue yPred c)).sum
    / (yTrue.length : ℚ)

/-- Overwrite `n_estimators` with a recomputed stage count when one was
computed this split. -/
def applyStages (p : GbcParams) : Option Nat → GbcParams
  | some s => { p with n_estimators := s }
  | none => p

/-- Everything one iteration of the split loop computes and appends. -/
structure SplitRecord where
  train_index : List Nat
  test_index : List Nat
  preParams : GbcParams
  postInitParams : GbcParams
  gbcParams : GbcParams
  stagesComputed : Option Nat
  supPort : List Bool
  ranking : List Nat
  gridScores : List ℚ
  nFeatures : Nat
  nameList : List String
  rfc_all_f1 : ℚ
  rfc_all_f2 : ℚ
  rfc_all_f3 : ℚ
  importances : List ℚ
deriving DecidableEq

/-- One iteration of the split loop (source lines 273-375).

`initParams` is the mutable `gbc_init_params` dict entering the
iteration and `gbcParams` the parameters of the `gbc` object in scope.
Source lines 281-283 pass the full `training_df` / `target_df` — which
`conform_data_for_ML` turns into exactly `X_all` / `y_all` (line 252) —
to `find_min_boosting_stages`; the split train partition is never passed
to a reoptimizer.  The `cv_grid_search` branch (lines 288-298) never
completes: `find_optimum_gbc_parameters` returns an estimator object,
which line 295 item-assigns (`obj['n_estimators'] = ...`) and line 298
`**`-unpacks as if it were the best-parameter dict; both operations
raise `TypeError`, so the branch aborts the iteration and no split
record is ever produced with `cv_grid_search` on.  On the executable
branch the recorded scores follow lines 347-372: project train and
holdout rows onto the support, fit on the trimmed train set, predict
the trimmed holdout set, and score the predictions against the true
holdout labels. -/
def splitStepRecord (env : MLEnv) (cfg : RfecvCfg) (X_all : List (List ℚ))
    (y_all : List ℚ) (feature_names : List String)
    (initParams gbcParams : GbcParams) (train_index test_index : List Nat) :
    SplitRecord :=
  let X_train := takeRows X_all train_index
  let X_holdout := takeRows X_all test_index
  let y_train := takeVals y_all train_index
  let y_holdout := takeVals y_all test_index
  let stages : Option Nat :=
    if cfg.find_min_boosting_stages then
      some (env.findStages initParams X_all y_all)
    else none
  let initParamsNext := applyStages initParams stages
  let supPort := env.rfeSupport gbcParams X_train y_train
  let X_trimTrainSet := rfecv_transform supPort X_train
  let X_trimHoldoutSet := rfecv_transform supPort X_holdout
  let holdout_preds := env.fitPredict gbcParams X_trimTrainSet y_train X_trimHoldoutSet
  { train_index := train_index
    test_index := test_index
    preParams := initParams
    postInitParams := initParamsNext
    gbcParams := gbcParams
    stagesComputed := stages
    supPort := supPort
    ranking := env.rfeRanking gbcParams X_train y_train
    gridScores := env.rfeGridScores gbcParams X_train y_train
    nFeatures := countTrue supPort
    nameList := selectNames supPort feature_names
    rfc_all_f1 := f1_weighted y_holdout holdout_preds
    rfc_all_f2 := r2_score y_holdout holdout_preds
    rfc_all_f3 := mean_absolute_error y_holdout holdout_preds
    importances := env.featureImportances gbcParams X_trimTrainSet y_train }

/-- One iteration of the split loop: on the `cv_grid_search` branch the
iteration raises `TypeError` (the stage count computed before it, at
lines 280-286, is discarded); otherwise it completes with the record of
`splitStepRecord`. -/
def splitStep (env : MLEnv) (cfg : RfecvCfg) (X_all : List (List ℚ))
    (y_all : List ℚ) (feature_names : List String)
    (initParams gbcParams : GbcParams) (train_index test_index : List Nat) :
    Except String SplitRecord :=
  if cfg.cv_grid_search then
    .error "TypeError"
  else
    .ok (splitStepRecord env cfg X_all y_all feature_names initParams gbcParams
      train_index test_index)

/-- The split loop: iterations share the mutable `gbc_init_params` dict
and the `gbc` object, threaded here as the two parameter states; a
`TypeError` raised inside an iteration aborts the whole call. -/
def runSplits (env : MLEnv) (cfg : RfecvCfg) (X_all : List (List ℚ))
    (y_all : List ℚ) (feature_names : List String) :
    GbcParams → GbcParams → List (List Nat × List Nat) →
      Except String (List SplitRecord)
  | _, _, [] => .ok []
  | ip, gp, s :: rest => do
    let r ← splitStep env cfg X_all y_all feature_names ip gp s.1 s.2
    let rs ← runSplits env cfg X_all y_all feature_names r.postInitParams r.gbcParams rest
    .ok (r :: rs)

/-- `rfecv_feature_identify`: the split-generation collaborator's output
is the `splits` list; `gbc` starts out initialized from
`gbc_init_params` (source line 269). -/
def rfecv_feature_identify (env : MLEnv) (cfg : RfecvCfg)
    (feature_names : List String) (X_all : List (List ℚ)) (y_all : List ℚ)
    (gbc_init_params : GbcParams) (splits : List (List Nat × List Nat)) :
    Except String (List SplitRecord) :=
  runSplits env cfg X_all y_all feature_names gbc_init_params gbc_init_params splits

/-- `nameListAll` (source line 339): `DataFrame.append` of a frame with
one row per retained name concatenates those rows, so the aggregate holds
one row per retained feature per split. -/
def nameListAll (rs : List SplitRecord) : List String :=
  (rs.map SplitRecord.nameList).flatten

/-- `optimumLengthAll` (source line 321): one row per split. -/
def optimumLengthAll (rs : List SplitRecord) : List Nat :=
  rs.map SplitRecord.nFeatures

/-- `classScoreAll` (source line 370): one weighted-F1 row per split. -/
def classScoreAll (rs : List SplitRecord) : List ℚ :=
  rs.map SplitRecord.rfc_all_f1

/-- `classScoreAll2` (source line 371): one R² row per split. -/
def classScoreAll2 (rs : List SplitRecord) : List ℚ :=
  rs.map SplitRecord.rfc_all_f2

/-- `classScoreAll3` (source line 372): one MAE row per split. -/
def classScoreAll3 (rs : List SplitRecord) : List ℚ :=
  rs.map SplitRecord.rfc_all_f3

/-- `featureImportancesAll` (source line 375): one row per split. -/
def featureImportancesAll (rs : List SplitRecord) : List (List ℚ) :=
  rs.map SplitRecord.importances

/-- `rfecvGridScoresAll` (source line 310): one row per split. -/
def rfecvGridScoresAll (rs : List SplitRecord) : List (List ℚ) :=
  rs.map SplitRecord.gridScores

/-! ## Claim properties and concrete instances -/

/-- The holdout predictions a split record gives rise to: the classifier
with the split's parameters, retrained on the support-trimmed train
partition, predicting the support-trimmed holdout partition. -/
def retrainedHoldoutPreds (env : MLEnv) (X_all : List (List ℚ))
    (y_all : List ℚ) (r : SplitRecord) : List ℚ :=
  env.fitPredict r.gbcParams
    (rfecv_transform r.supPort (takeRows X_all r.train_index))
    (takeVals y_all r.train_index)
    (rfecv_transform r.supPort (takeRows X_all r.test_index))

/-- Claim C1 property of one split record: the recorded weighted F1, R²
and MAE are computed from the retrained classifier's predictions on the
trimmed holdout set against the true holdout labels. -/
def scoresFromRetrained (env : MLEnv) (X_all : List (List ℚ))
    (y_all : List ℚ) (r : SplitRecord) : Prop :=
  r.rfc_all_f1 = f1_weighted (takeVals y_all r.test_index)
      (retrainedHoldoutPreds env X_all y_all r)
  ∧ r.rfc_all_f2 = r2_score (takeVals y_all r.test_index)
      (retrainedHoldoutPreds env X_all y_all r)
  ∧ r.rfc_all_f3 = mean_absolute_error (takeVals y_all r.test_index)
      (retrainedHoldoutPreds env X_all y_all r)

/-- Amended claim C2 property of one split record: the recomputed stage
count was computed from the full dataset `(X_all, y_all)` with the
`gbc_init_params` entering the iteration, never from the split's train
partition. -/
def stagesFromFullData (env : MLEnv) (X_all : List (List ℚ))
    (y_all : List ℚ) (r : SplitRecord) : Prop :=
  r.stagesComputed = some (env.findStages r.preParams X_all y_all)

/-- Amended claim C7 property: every aggregated collection except the
retained-name frame has one entry per split; the retained-name frame has
one row per retained feature; per split, the retained-name count equals
the true count of the support mask. -/
def aggregationShapeOk (splits : List (List Nat × List Nat))
    (rs : List SplitRecord) : Prop :=
  (optimumLengthAll rs).length = splits.length
  ∧ (classScoreAll rs).length = splits.length
  ∧ (classScoreAll2 rs).length = splits.length
  ∧ (classScoreAll3 rs).length = splits.length
  ∧ (featureImportancesAll rs).length = splits.length
  ∧ (rfecvGridScoresAll rs).length = splits.length
  ∧ (nameListAll rs).length = (rs.map (fun r => countTrue r.supPort)).sum
  ∧ rs.all (fun r => r.nameList.length == countTrue r.supPort) = true

/-- A placeholder split record (only used to name list entries). -/
def blankSplitRecord : SplitRecord :=
  { train_index := [], test_index := [], preParams := ⟨0, 0, 0⟩
    postInitParams := ⟨0, 0, 0⟩, gbcParams := ⟨0, 0, 0⟩, stagesComputed := none
    supPort := [], ranking := [], gridScores := [], nFeatures := 0
    nameList := [], rfc_all_f1 := 0, rfc_all_f2 := 0, rfc_all_f3 := 0
    importances := [] }

/-- A concrete collaborator environment for the feature-elimination
claims: the stage selector returns the row count of the data it is given,
so it distinguishes the full dataset from a train partition. -/
def envElim : MLEnv :=
  { findStages := fun _ X _ => X.length
    rfeSupport := fun _ _ _ => [true, true]
    rfeRanking := fun _ _ _ => [1, 1]
    rfeGridScores := fun _ _ _ => [1, 2]
    fitPredict := fun _ _ _ Xte => Xte.map (fun _ => 1)
    featureImportances := fun _ _ _ => [1, 0] }

/-- Concrete four-row dataset with two channels. -/
def XElim : List (List ℚ) := [[1, 2], [3, 4], [5, 6], [7, 8]]

/-- Labels of the concrete dataset. -/
def yElim : List ℚ := [0, 1, 0, 1]

/-- The channel names of the concrete dataset. -/
def namesElim : List String := ["107Ag", "140Ce"]

/-- Base classifier parameters of the concrete runs. -/
def pElim : GbcParams := ⟨100, 1, 3⟩

/-- One stratified split of the four rows: half train, half holdout. -/
def splitsElim : List (List Nat × List Nat) := [([0, 1], [2, 3])]

/-- A fitted-classifier environment for the inference claims: two
training features, constant label-1 predictions, constant class
probabilities `(7/10, 3/10)`. -/
def envInfer : InferEnv :=
  { predict := fun X => X.map (fun _ => 1)
    predictProba := fun X => X.map (fun _ => ((7 : ℚ)/10, (3 : ℚ)/10))
    n_features := 2 }

/-- A run table whose channels match the training schema. -/
def runMatch : Table := { cols := ["107Ag", "140Ce"], rows := [[some 1, some 2]] }

/-- A run table with the same channel count but entirely different
channel names than the training schema. -/
def runRenamed : Table := { cols := ["60Ni", "90Zr"], rows := [[some 1, some 2]] }

/-- A two-row, one-channel run table with trigger values 2 and 7. -/
def runThreshold : Table := { cols := ["140Ce"], rows := [[some 2], [some 7]] }

/-- Inference configuration without threshold filtering and without
probability tracking (both independently switchable source flags). -/
def cfgPlain : InferCfg :=
  { track_class_probabilities := none, apply_threshold := false }

/-- Inference configuration with probability thresholds `(9/10, 9/10)`. -/
def cfgHighProba : InferCfg :=
  { track_class_probabilities := some ((9 : ℚ)/10, (9 : ℚ)/10)
    apply_threshold := false }

/-- Elimination run with both reoptimization flags off. -/
def cfgElimPlain : RfecvCfg := {}

/-- Elimination run with per-split stage-count reoptimization on. -/
def cfgElimStages : RfecvCfg := { find_min_boosting_stages := true }

/-- Elimination run with per-split grid-search reoptimization on. -/
def cfgElimGrid : RfecvCfg := { cv_grid_search := true }

/-- The records of the concrete elimination run with both flags off. -/
def elimPlainRecords : List SplitRecord :=
  (rfecv_feature_identify envElim cfgElimPlain namesElim XElim yElim pElim
    splitsElim).toOption.getD []

/-- The records of the concrete elimination run with stage-count
reoptimization on. -/
def elimStagesRecords : List SplitRecord :=
  (rfecv_feature_identify envElim cfgElimStages namesElim XElim yElim pElim
    splitsElim).toOption.getD []

/-- Inference configuration with no threshold filtering and the source
default probability thresholds `(1/10, 1/10)`. -/
def cfgNoThresh : InferCfg := { apply_threshold := false }

/-! ## Helper lemmas -/

theorem except_bind_ok {ε : Type u} {α β : Type v} (a : α)
    (f : α → Except ε β) : (Except.ok a >>= f) = f a := rfl

theorem except_bind_error {ε : Type u} {α β : Type v} (e : ε)
    (f : α → Except ε β) :
    ((Except.error e : Except ε α) >>= f) = Except.error e := rfl

theorem except_isOk_ok {ε : Type u} {α : Type v} (a : α) :
    (Except.ok a : Except ε α).isOk = true := rfl

theorem except_isOk_error {ε : Type u} {α : Type v} (e : ε) :
    (Except.error e : Except ε α).isOk = false := rfl

theorem countLe_mono (xs : List ℚ) (a b : ℚ) (h : a ≤ b) :
    countLe xs a ≤ countLe xs b := by
  induction xs with
  | nil => simp [countLe]
  | cons x xs ih =>
    simp only [countLe, List.filter_cons] at *
    by_cases hx : x ≤ a
    · have hxb : x ≤ b := le_trans hx h
      simpa [hx, hxb] using Nat.succ_le_succ ih
    · by_cases hxb : x ≤ b
      · simpa [hx, hxb] using Nat.le_succ_of_le ih
      · simpa [hx, hxb] using ih

theorem runSplits_length (env : MLEnv) (cfg : RfecvCfg) (X_all : List (List ℚ))
    (y_all : List ℚ) (names : List String) :
    ∀ (splits : List (List Nat × List Nat)) (ip gp : GbcParams)
      (rs : List SplitRecord),
      runSplits env cfg X_all y_all names ip gp splits = .ok rs →
      rs.length = splits.length := by
  intro splits
  induction splits with
  | nil =>
    intro ip gp rs h
    simp only [runSplits, Except.ok.injEq] at h
    subst h
    rfl
  | cons s rest ih =>
    intro ip gp rs h
    simp only [runSplits] at h
    cases hs : splitStep env cfg X_all y_all names ip gp s.1 s.2 with
    | error e => rw [hs, except_bind_error] at h; exact absurd h (by simp)
    | ok r0 =>
      rw [hs, except_bind_ok] at h
      cases hrest : runSplits env cfg X_all y_all names r0.postInitParams
          r0.gbcParams rest with
      | error e => rw [hrest, except_bind_error] at h; exact absurd h (by simp)
      | ok rs0 =>
        rw [hrest, except_bind_ok] at h
        simp only [Except.ok.injEq] at h
        subst h
        simpa using ih _ _ rs0 hrest

theorem runSplits_get_prop (env : MLEnv) (cfg : RfecvCfg) (X_all : List (List ℚ))
    (y_all : List ℚ) (names : List String) (P : SplitRecord → Prop)
    (hstep : ∀ ip gp a b r,
      splitStep env cfg X_all y_all names ip gp a b = .ok r → P r) :
    ∀ (splits : List (List Nat × List Nat)) (ip gp : GbcParams)
      (rs : List SplitRecord),
      runSplits env cfg X_all y_all names ip gp splits = .ok rs →
      ∀ (i : Nat) (r : SplitRecord), rs.get? i = some r → P r := by
  intro splits
  induction splits with
  | nil =>
    intro ip gp rs h i r hget
    simp only [runSplits, Except.ok.injEq] at h
    subst h
    simp at hget
  | cons s rest ih =>
    intro ip gp rs h i r hget
    simp only [runSplits] at h
    cases hs : splitStep env cfg X_all y_all names ip gp s.1 s.2 with
    | error e => rw [hs, except_bind_error] at h; exact absurd h (by simp)
    | ok r0 =>
      rw [hs, except_bind_ok] at h
      cases hrest : runSplits env cfg X_all y_all names r0.postInitParams
          r0.gbcParams rest with
      | error e => rw [hrest, except_bind_error] at h; exact absurd h (by simp)
      | ok rs0 =>
        rw [hrest, except_bind_ok] at h
        simp only [Except.ok.injEq] at h
        subst h
        cases i with
        | zero =>
          simp only [List.get?_cons_zero, Option.some.injEq] at hget
          exact hget ▸ hstep _ _ _ _ r0 hs
        | succ n =>
          simp only [List.get?_cons_succ] at hget
          exact ih _ _ rs0 hrest n r hget

theorem splitStep_ok_prop (env : MLEnv) (cfg : RfecvCfg)
    (X_all : List (List ℚ)) (y_all : List ℚ) (names : List String)
    (ip gp : GbcParams) (a b : List Nat) (r : SplitRecord)
    (h : splitStep env cfg X_all y_all names ip gp a b = .ok r) :
    cfg.cv_grid_search = false ∧ r = splitStepRecord env cfg X_all y_all names ip gp a b := by
  unfold splitStep at h
  by_cases hg : cfg.cv_grid_search = true
  · rw [if_pos hg] at h
    exact absurd h (by simp)
  · rw [if_neg hg] at h
    simp only [Except.ok.injEq] at h
    exact ⟨by simpa using hg, h.symm⟩

theorem selectNames_length (supPort : List Bool) (names : List String)
    (h : supPort.length = names.length) :
    (selectNames supPort names).length = countTrue supPort := by
  induction supPort generalizing names with
  | nil => simp [selectNames, countTrue]
  | cons b bs ih =>
    cases names with
    | nil => exact absurd h (by simp)
    | cons n ns =>
      have h' : bs.length = ns.length := by simpa using h
      cases b
      · simpa [selectNames, countTrue, List.filter_cons] using ih ns h'
      · simpa [selectNames, countTrue, List.filter_cons] using ih ns h'

/-! ## Claim C9 -/

/-- C9: for every table `T`, `filter_negative T` contains no negative
values, its rows form a sublist (hence a subset) of the rows of `T`, and
the operation is idempotent. -/
theorem c9_filter_negative_clean_sublist_idempotent (t : Table) :
    (filter_negative t).rows.all (fun r => !(rowHasNegative r)) = true
    ∧ List.Sublist (filter_negative t).rows t.rows
    ∧ filter_negative (filter_negative t) = filter_negative t := by
  refine ⟨?_, ?_, ?_⟩
  · rw [List.all_eq_true]
    intro r hr
    have hp := List.of_mem_filter hr
    rw [List.all_eq_true] at hp
    simp only [rowHasNegative, Bool.not_eq_true', List.any_eq_false]
    intro c hc
    have := hp c hc
    cases c with
    | none => simp at this
    | some v =>
      simp only [decide_eq_true_eq] at this ⊢
      exact not_lt.2 this
  · exact List.filter_sublist t.rows
  · simp [filter_negative, List.filter_filter]

/-! ## Claim C10 -/

/-- C10: in `apply_trained_classification`, the column set dropped by the
critical-isotope restriction is the instance training-data columns minus
the critical set; a run column absent from the training-data columns is
never dropped; and with the constructor-default empty training data no
column is dropped at all, critical isotopes notwithstanding. -/
theorem c10_critical_drop_uses_training_cols
    (trainingDataCols critical_isotopes : List String) (t : Table) :
    (∀ c, c ∈ non_crit_isotopes trainingDataCols critical_isotopes ↔
        (c ∈ trainingDataCols ∧ critical_isotopes.contains c = false))
    ∧ (∀ c, c ∈ t.cols → c ∉ trainingDataCols → ∀ t',
        critical_isotope_drop trainingDataCols critical_isotopes t = .ok t' →
        c ∈ t'.cols)
    ∧ (trainingDataCols = [] → Table.wf t = true →
        critical_isotope_drop trainingDataCols critical_isotopes t = .ok t) := by
  refine ⟨?_, ?_, ?_⟩
  · intro c
    simp [non_crit_isotopes, List.mem_filter]
  · intro c hc hnc t' h'
    unfold critical_isotope_drop df_drop at h'
    split at h'
    · simp only [Except.ok.injEq] at h'
      subst h'
      simp only [List.mem_filter]
      refine ⟨hc, ?_⟩
      simp only [Bool.not_eq_true']
      rw [Bool.eq_false_iff]
      intro hmem
      rw [List.contains_eq_any_beq, List.any_eq_true] at hmem
      obtain ⟨x, hx, hxc⟩ := hmem
      rw [beq_iff_eq] at hxc
      subst hxc
      exact hnc (List.mem_of_mem_filter hx)
    · exact absurd h' (by simp)
  · intro h hwf
    subst h
    unfold critical_isotope_drop df_drop non_crit_isotopes
    simp only [List.filter_nil, List.all_nil, if_true]
    refine congrArg Except.ok ?_
    have hcols : t.cols.filter (fun c => !(List.contains [] c)) = t.cols := by
      simp
    have hrows : t.rows.map (fun r =>
        ((t.cols.zip r).filter (fun p => !(List.contains [] p.1))).map
          (fun p => p.2)) = t.rows := by
      have hmap : t.rows.map (fun r =>
          ((t.cols.zip r).filter (fun p => !(List.contains [] p.1))).map
            (fun p => p.2)) = t.rows.map id := by
        apply List.map_congr_left
        intro r hr
        have hlen : r.length = t.cols.length := by
          have := (List.all_eq_true.mp hwf) r hr
          simpa using this
        simp only [List.contains_nil, Bool.not_false, List.filter_true, id]
        exact List.map_snd_zip t.cols r (le_of_eq hlen)
      simpa using hmap
    rw [hcols, hrows]

/-- Witness for C10 at a concrete table: the column `60Ni`, absent from
the training data, survives the drop, and with empty training data the
drop is the identity. -/
theorem c10_witness :
    ("60Ni" ∈ (Table.mk ["60Ni"] [[some (2 : ℚ)]]).cols)
    ∧ critical_isotope_drop [] ["107Ag"] runMatch = .ok runMatch :=
  ⟨(c10_critical_drop_uses_training_cols ["107Ag", "140Ce"] ["107Ag"]
      (Table.mk ["140Ce", "60Ni"] [[some 5, some 2]])).2.1
      "60Ni" (by decide) (by decide) (Table.mk ["60Ni"] [[some (2 : ℚ)]]) (by rfl),
   (c10_critical_drop_uses_training_cols [] ["107Ag"] runMatch).2.2 rfl (by rfl)⟩

/-! ## Claim C4 -/

/-- Amended C4: the detection-threshold filter invoked by
`apply_trained_classification` keeps exactly the rows with no missing
cell whose trigger-channel value is at least 0 — the call at source line
165 forwards no threshold, so the default `threshold_value=0` is used,
not a caller-configured threshold value. -/
theorem c4_amended_inference_threshold_is_default_zero (t : Table)
    (trig : String) (r : List (Option ℚ)) (t' : Table)
    (hcol : t.cols.contains trig = true)
    (hstep : inference_threshold_step trig t = .ok t') :
    (r ∈ t'.rows ↔ (r ∈ t.rows
      ∧ (∃ v, rowCell t.cols r trig = some v ∧ 0 ≤ v)
      ∧ rowAllPresent r = true)) := by
  unfold inference_threshold_step apply_detection_threshold at hstep
  rw [if_pos hcol] at hstep
  simp only [Except.ok.injEq] at hstep
  subst hstep
  simp only [List.mem_filter, Bool.and_eq_true]
  constructor
  · rintro ⟨hmem, hpred, hpres⟩
    refine ⟨hmem, ?_, hpres⟩
    cases hcell : rowCell t.cols r trig with
    | none => rw [hcell] at hpred; simp at hpred
    | some v =>
      rw [hcell] at hpred
      simp only [decide_eq_true_eq] at hpred
      exact ⟨v, rfl, hpred⟩
  · rintro ⟨hmem, ⟨v, hcell, hv⟩, hpres⟩
    refine ⟨hmem, ?_, hpres⟩
    rw [hcell]
    simpa using hv

/-- Witness for the amended C4 on a concrete two-row table: the row with
trigger value 2 is kept, being present and nonnegative. -/
theorem c4_witness :
    (runThreshold.cols.contains "140Ce" = true)
    ∧ ([some (2 : ℚ)] ∈ runThreshold.rows ↔ ([some (2 : ℚ)] ∈ runThreshold.rows
      ∧ (∃ v, rowCell runThreshold.cols [some (2 : ℚ)] "140Ce" = some v ∧ 0 ≤ v)
      ∧ rowAllPresent [some (2 : ℚ)] = true)) :=
  ⟨by rfl, c4_amended_inference_threshold_is_default_zero runThreshold "140Ce"
      [some 2] runThreshold (by rfl) (by rfl)⟩

/-- C4 counterexample: with a configured threshold value of 5, the claim
says the filter keeps exactly the rows with trigger value at least 5 —
but the inference-side call keeps both rows (values 2 and 7) because the
threshold argument is never forwarded and defaults to 0. -/
theorem c4_counterexample :
    inference_threshold_step "140Ce" runThreshold = .ok runThreshold
    ∧ rowsWithTriggerAtLeast runThreshold "140Ce" 5 ≠ runThreshold.rows := by
  exact ⟨by rfl, by decide⟩

/-! ## Claim C3 -/

/-- Amended C3: conversion to the numeric array never consults the
training schema and cannot fail with a schema error; after successful
conditioning, the per-run processing succeeds if and only if the
conditioned rows are nonempty, have no missing value, and their column
count equals the feature count recorded at fit time.  Channel names play
no role, so a run whose channels differ from training but match in count
is accepted, and the only failure is at prediction, not conversion. -/
theorem c3_amended_only_feature_count_checked (env : InferEnv)
    (cfg : InferCfg) (tcols : List String) (name : String) (t t3 : Table)
    (htrack : cfg.track_particle_counts = true)
    (hcond : conditionedTable cfg tcols t = .ok t3) :
    ((apply_trained_classification_run env cfg tcols name t).isOk = true ↔
      (t3.rows.isEmpty = false
        ∧ t3.rows.all rowAllPresent = true
        ∧ t3.rows.all (fun r => r.length == env.n_features) = true)) := by
  unfold apply_trained_classification_run conditionedX
  rw [hcond, except_bind_ok]
  unfold as_matrix_checked
  by_cases h1 : t3.rows.all rowAllPresent = true
  · rw [if_pos h1]
    by_cases h2 : t3.rows.isEmpty = true
    · rw [if_pos h2, except_bind_error]
      simp [except_isOk_error, h2]
    · rw [if_neg h2]
      by_cases h3 : t3.rows.all (fun r => r.length == env.n_features) = true
      · rw [if_pos h3, except_bind_ok]
        simp only [htrack, if_true]
        simp [except_isOk_ok, h1, h3, Bool.not_eq_true] at h2 ⊢
        exact h2
      · rw [if_neg h3, except_bind_error]
        simp [except_isOk_error, h3]
  · rw [if_neg h1, except_bind_error]
    simp [except_isOk_error, h1]

/-- Witness for the amended C3: a run matching the training feature
count is accepted end to end. -/
theorem c3_witness :
    (cfgPlain.track_particle_counts = true)
    ∧ ((apply_trained_classification_run envInfer cfgPlain [] "run1.csv"
          runMatch).isOk = true ↔
      (runMatch.rows.isEmpty = false
        ∧ runMatch.rows.all rowAllPresent = true
        ∧ runMatch.rows.all (fun r => r.length == envInfer.n_features) = true)) :=
  ⟨rfl, c3_amended_only_feature_count_checked envInfer cfgPlain [] "run1.csv"
      runMatch runMatch rfl (by rfl)⟩

/-- C3 counterexample: a run whose retained channel names share nothing
with the training schema is still processed to a summary row — no
SchemaMismatch failure occurs at conversion or anywhere else, because
only the column count is ever checked. -/
theorem c3_counterexample :
    apply_trained_classification_run envInfer cfgPlain ["107Ag", "140Ce"]
        "run2.csv" runRenamed
      = .ok (some { run_name := "run2.csv", total_particle_count := 1
                    nat_particle_count := 1, tec_particle_count := 0
                    nat_above_proba_thresh := none
                    tech_above_proba_thresh := none })
    ∧ runRenamed.cols ≠ ["107Ag", "140Ce"]
    ∧ "60Ni" ∉ ["107Ag", "140Ce"] := by
  refine ⟨by rfl, by decide, by decide⟩

/-! ## Claim C5 -/

/-- Amended C5: both "above proba thresh" counts are nonnegative and at
most their respective "by proba" baseline counts whenever both
probability thresholds are at most 1/2 (as with the source default
`[0.1, 0.1]`); the source does not guard larger thresholds, for which
the difference of counts can go negative. -/
theorem c5_amended_counts_bounded_for_small_thresholds (env : InferEnv)
    (cfg : InferCfg) (tcols : List String) (name : String) (t : Table)
    (X : List (List ℚ)) (row : SummaryRow) (p0 p1 : ℚ)
    (hX : conditionedX env cfg tcols t = .ok X)
    (hrun : apply_trained_classification_run env cfg tcols name t
      = .ok (some row))
    (hp : cfg.track_class_probabilities = some (p0, p1))
    (h0 : p0 ≤ 1/2) (h1 : p1 ≤ 1/2) :
    row.nat_above_proba_thresh
        = some (nat_above_proba_thresh_count (env.predictProba X) p0)
    ∧ 0 ≤ nat_above_proba_thresh_count (env.predictProba X) p0
    ∧ nat_above_proba_thresh_count (env.predictProba X) p0
        ≤ (total_natural_by_proba (env.predictProba X) : Int)
    ∧ row.tech_above_proba_thresh
        = some (tech_above_proba_thresh_count (env.predictProba X) p1)
    ∧ 0 ≤ tech_above_proba_thresh_count (env.predictProba X) p1
    ∧ tech_above_proba_thresh_count (env.predictProba X) p1
        ≤ (total_technical_by_proba (env.predictProba X) : Int) := by
  have hn := countLe_mono ((env.predictProba X).map (fun p => p.1)) p0 (1/2) h0
  have ht := countLe_mono ((env.predictProba X).map (fun p => p.2)) p1 (1/2) h1
  unfold apply_trained_classification_run at hrun
  rw [hX, except_bind_ok, hp] at hrun
  by_cases htr : cfg.track_particle_counts = true
  · simp only [htr, if_true, Except.ok.injEq, Option.some.injEq] at hrun
    subst hrun
    refine ⟨rfl, ?_, ?_, rfl, ?_, ?_⟩
    · unfold nat_above_proba_thresh_count total_natural_by_proba at *
      omega
    · unfold nat_above_proba_thresh_count total_natural_by_proba at *
      omega
    · unfold tech_above_proba_thresh_count total_technical_by_proba at *
      omega
    · unfold tech_above_proba_thresh_count total_technical_by_proba at *
      omega
  · simp only [Bool.not_eq_true] at htr
    simp [htr] at hrun

/-- Witness for the amended C5 with the source default thresholds
`(1/10, 1/10)` on a concrete run. -/
theorem c5_witness :
    ((1 : ℚ)/10 ≤ 1/2)
    ∧ ((SummaryRow.mk "run1.csv" 1 1 0 (some 0) (some 1)).nat_above_proba_thresh
        = some (nat_above_proba_thresh_count
            (envInfer.predictProba [[(1 : ℚ), 2]]) ((1 : ℚ)/10))
      ∧ 0 ≤ nat_above_proba_thresh_count
            (envInfer.predictProba [[(1 : ℚ), 2]]) ((1 : ℚ)/10)
      ∧ nat_above_proba_thresh_count
            (envInfer.predictProba [[(1 : ℚ), 2]]) ((1 : ℚ)/10)
          ≤ (total_natural_by_proba (envInfer.predictProba [[(1 : ℚ), 2]]) : Int)
      ∧ (SummaryRow.mk "run1.csv" 1 1 0 (some 0) (some 1)).tech_above_proba_thresh
        = some (tech_above_proba_thresh_count
            (envInfer.predictProba [[(1 : ℚ), 2]]) ((1 : ℚ)/10))
      ∧ 0 ≤ tech_above_proba_thresh_count
            (envInfer.predictProba [[(1 : ℚ), 2]]) ((1 : ℚ)/10)
      ∧ tech_above_proba_thresh_count
            (envInfer.predictProba [[(1 : ℚ), 2]]) ((1 : ℚ)/10)
          ≤ (total_technical_by_proba (envInfer.predictProba [[(1 : ℚ), 2]]) : Int)) :=
  ⟨by norm_num,
   c5_amended_counts_bounded_for_small_thresholds envInfer cfgNoThresh []
     "run1.csv" runMatch [[1, 2]]
     (SummaryRow.mk "run1.csv" 1 1 0 (some 0) (some 1)) ((1 : ℚ)/10) ((1 : ℚ)/10)
     (by rfl)
     (by norm_num [apply_trained_classification_run, conditionedX,
       conditionedTable, filter_negative, as_matrix_checked, rowAllPresent,
       envInfer, cfgNoThresh, runMatch, countLabel, countLe,
       total_natural_by_proba, total_technical_by_proba,
       nat_above_proba_thresh_count, tech_above_proba_thresh_count,
       except_bind_ok])
     (by rfl) (by norm_num) (by norm_num)⟩

/-- C5 counterexample: with probability thresholds `(9/10, 9/10)` — the
claim quantifies over every threshold pair — the "natural above proba
thresh" count of a concrete run is `-1`, violating nonnegativity, because
the source subtracts a larger count from a smaller one when a threshold
exceeds 0.5. -/
theorem c5_counterexample :
    apply_trained_classification_run envInfer cfgHighProba [] "run1.csv" runMatch
      = .ok (some { run_name := "run1.csv", total_particle_count := 1
                    nat_particle_count := 1, tec_particle_count := 0
                    nat_above_proba_thresh := some (-1)
                    tech_above_proba_thresh := some 0 })
    ∧ ((-1 : Int) < 0) := by
  refine ⟨?_, by norm_num⟩
  norm_num [apply_trained_classification_run, conditionedX, conditionedTable,
    filter_negative, as_matrix_checked, rowAllPresent, envInfer, cfgHighProba,
    runMatch, countLabel, countLe, total_natural_by_proba,
    total_technical_by_proba, nat_above_proba_thresh_count,
    tech_above_proba_thresh_count, except_bind_ok]

/-! ## Claim C8 -/

/-- C8: on every successfully processed run, the summary row's total
particle count is the sum of the natural and technical counts, and those
two counts are counts of rows by predicted label (1 = natural,
0 = technical), not by probability. -/
theorem c8_total_is_nat_plus_tec (env : InferEnv) (cfg : InferCfg)
    (tcols : List String) (name : String) (t : Table)
    (X : List (List ℚ)) (row : SummaryRow)
    (hX : conditionedX env cfg tcols t = .ok X)
    (hrun : apply_trained_classification_run env cfg tcols name t
      = .ok (some row)) :
    row.total_particle_count = row.nat_particle_count + row.tec_particle_count
    ∧ row.nat_particle_count = countLabel (env.predict X) 1
    ∧ row.tec_particle_count = countLabel (env.predict X) 0 := by
  unfold apply_trained_classification_run at hrun
  rw [hX, except_bind_ok] at hrun
  by_cases htr : cfg.track_particle_counts = true
  · simp only [htr, if_true, Except.ok.injEq, Option.some.injEq] at hrun
    subst hrun
    exact ⟨rfl, rfl, rfl⟩
  · simp only [Bool.not_eq_true] at htr
    simp [htr] at hrun

/-- Witness for C8 on a concrete run with one predicted-natural row. -/
theorem c8_witness :
    ((SummaryRow.mk "run1.csv" 1 1 0 none none).total_particle_count
        = (SummaryRow.mk "run1.csv" 1 1 0 none none).nat_particle_count
          + (SummaryRow.mk "run1.csv" 1 1 0 none none).tec_particle_count)
    ∧ (SummaryRow.mk "run1.csv" 1 1 0 none none).nat_particle_count
        = countLabel (envInfer.predict [[(1 : ℚ), 2]]) 1
    ∧ (SummaryRow.mk "run1.csv" 1 1 0 none none).tec_particle_count
        = countLabel (envInfer.predict [[(1 : ℚ), 2]]) 0 :=
  c8_total_is_nat_plus_tec envInfer cfgPlain [] "run1.csv" runMatch [[1, 2]]
    (SummaryRow.mk "run1.csv" 1 1 0 none none) (by rfl) (by rfl)

/-! ## Claim C6 -/

/-- Amended C6: `find_optimum_gbc_parameters` overrides `n_estimators`
with the stored optimum stage count exactly when that count is nonzero —
the Python truthiness test `if self.optimum_boosting_stages:` skips the
override when the stage index is 0 — and in every case returns a freshly
constructed, unfit classifier carrying the merged parameter set. -/
theorem c6_amended_truthy_stage_override (p : GbcParams) (s : Nat) :
    (s ≠ 0 → find_optimum_gbc_parameters p s
        = { params := { p with n_estimators := s }, fittedOn := none })
    ∧ (s = 0 → find_optimum_gbc_parameters p s
        = { params := p, fittedOn := none })
    ∧ (find_optimum_gbc_parameters p s).fittedOn = none := by
  refine ⟨?_, ?_, ?_⟩
  · intro h
    simp [find_optimum_gbc_parameters, h]
  · intro h
    simp [find_optimum_gbc_parameters, h]
  · by_cases h : s = 0 <;> simp [find_optimum_gbc_parameters, h]

/-- Witness for the amended C6: a nonzero stage count 7 does override the
grid-search best `n_estimators` of 100, and the result is unfit. -/
theorem c6_witness :
    ((7 : Nat) ≠ 0)
    ∧ find_optimum_gbc_parameters ⟨100, 1, 3⟩ 7
        = { params := ⟨7, 1, 3⟩, fittedOn := none } :=
  ⟨by decide, (c6_amended_truthy_stage_override ⟨100, 1, 3⟩ 7).1 (by decide)⟩

/-- C6 counterexample: with `bestStageIndex = 0` the override is skipped
by truthiness, so `n_estimators` stays at the grid-search value 100
instead of becoming 0 as the claim requires. -/
theorem c6_counterexample :
    (find_optimum_gbc_parameters ⟨100, 1, 3⟩ 0).params.n_estimators = 100
    ∧ ¬((find_optimum_gbc_parameters ⟨100, 1, 3⟩ 0).params.n_estimators = 0) := by
  exact ⟨by decide, by decide⟩

/-! ## Claim C1 -/

/-- C1: for every split record of `rfecv_feature_identify`, the train and
holdout partitions are projected onto the retained support, the
classifier is retrained on the trimmed train set, and the recorded
weighted F1, R² and MAE are computed from that retrained classifier's
predictions on the trimmed holdout set against the true holdout labels
(sklearn's `RFECV` refits its estimator on the support-reduced training
data, so under the pure-function model of fitting
`rfecv.predict(X_holdout)` is exactly the retrained classifier applied
to the trimmed holdout set). -/
theorem c1_holdout_scores_from_retrained (env : MLEnv) (cfg : RfecvCfg)
    (names : List String) (X_all : List (List ℚ)) (y_all : List ℚ)
    (p : GbcParams) (splits : List (List Nat × List Nat))
    (rs : List SplitRecord) (i : Nat) (r : SplitRecord)
    (hrun : rfecv_feature_identify env cfg names X_all y_all p splits = .ok rs)
    (hget : rs.get? i = some r) :
    scoresFromRetrained env X_all y_all r := by
  refine runSplits_get_prop env cfg X_all y_all names _ ?_ splits p p rs hrun i r hget
  intro ip gp a b r0 hr0
  obtain ⟨-, rfl⟩ := splitStep_ok_prop env cfg X_all y_all names ip gp a b r0 hr0
  exact ⟨rfl, rfl, rfl⟩

/-- Witness for C1 at the concrete elimination run: its first split
record satisfies the score recomputation property. -/
theorem c1_witness :
    (rfecv_feature_identify envElim cfgElimPlain namesElim XElim yElim pElim
        splitsElim = .ok elimPlainRecords)
    ∧ (elimPlainRecords.get? 0
        = some ((elimPlainRecords.get? 0).getD blankSplitRecord))
    ∧ scoresFromRetrained envElim XElim yElim
        ((elimPlainRecords.get? 0).getD blankSplitRecord) :=
  ⟨rfl, rfl, c1_holdout_scores_from_retrained envElim cfgElimPlain namesElim
      XElim yElim pElim splitsElim elimPlainRecords 0 _ rfl rfl⟩

/-! ## Claim C2 -/

/-- Amended C2: when `find_min_boosting_stages` is enabled, the per-split
stage count is recomputed from the full dataset (`training_df` /
`target_df`, conforming to `X_all` / `y_all` — source lines 281-283), not
from the split's train partition; and when `cv_grid_search` is enabled no
split ever completes — the estimator object that
`find_optimum_gbc_parameters` returns is used as a parameter dict at
lines 295 and 298, raising `TypeError` on the first iteration, so the
grid-searched hyperparameters are never recomputed per split from any
data. -/
theorem c2_reoptimization_uses_full_dataset (env : MLEnv) (cfg : RfecvCfg)
    (names : List String) (X_all : List (List ℚ)) (y_all : List ℚ)
    (p : GbcParams) (splits : List (List Nat × List Nat))
    (rs : List SplitRecord) (i : Nat) (r : SplitRecord) :
    (rfecv_feature_identify env cfg names X_all y_all p splits = .ok rs →
      rs.get? i = some r → cfg.find_min_boosting_stages = true →
      stagesFromFullData env X_all y_all r)
    ∧ (cfg.cv_grid_search = true → splits ≠ [] →
      rfecv_feature_identify env cfg names X_all y_all p splits
        = .error "TypeError") := by
  constructor
  · intro hrun hget hmin
    refine runSplits_get_prop env cfg X_all y_all names _ ?_ splits p p rs hrun i r hget
    intro ip gp a b r0 hr0
    obtain ⟨-, rfl⟩ := splitStep_ok_prop env cfg X_all y_all names ip gp a b r0 hr0
    simp [stagesFromFullData, splitStepRecord, hmin]
  · intro hgrid hne
    cases splits with
    | nil => exact absurd rfl hne
    | cons s rest =>
      have hs : splitStep env cfg X_all y_all names p p s.1 s.2
          = .error "TypeError" := by
        unfold splitStep
        rw [if_pos hgrid]
      simp only [rfecv_feature_identify, runSplits]
      rw [hs, except_bind_error]

/-- Witness for the amended C2: the stage-count half at the concrete run
with `find_min_boosting_stages` on, and the `TypeError` half at the same
run with `cv_grid_search` on. -/
theorem c2_witness :
    (rfecv_feature_identify envElim cfgElimStages namesElim XElim yElim pElim
        splitsElim = .ok elimStagesRecords)
    ∧ (elimStagesRecords.get? 0
        = some ((elimStagesRecords.get? 0).getD blankSplitRecord))
    ∧ (cfgElimStages.find_min_boosting_stages = true)
    ∧ stagesFromFullData envElim XElim yElim
        ((elimStagesRecords.get? 0).getD blankSplitRecord)
    ∧ (cfgElimGrid.cv_grid_search = true)
    ∧ splitsElim ≠ []
    ∧ rfecv_feature_identify envElim cfgElimGrid namesElim XElim yElim pElim
        splitsElim = .error "TypeError" :=
  ⟨rfl, rfl, rfl,
   (c2_reoptimization_uses_full_dataset envElim cfgElimStages namesElim XElim
      yElim pElim splitsElim elimStagesRecords 0
      ((elimStagesRecords.get? 0).getD blankSplitRecord)).1 rfl rfl rfl,
   rfl, by decide,
   (c2_reoptimization_uses_full_dataset envElim cfgElimGrid namesElim XElim
      yElim pElim splitsElim [] 0 blankSplitRecord).2 rfl (by decide)⟩

/-- C2 counterexample: on a four-row dataset whose only split trains on
two rows, the stage selector — which here reports the row count of the
data it receives — records 4 (the full dataset), while recomputation
from the train partition would give 2; and with `cv_grid_search` on the
call aborts with `TypeError` before recomputing anything per split: the
claim that the reoptimizers use only the train partition is false. -/
theorem c2_counterexample :
    (elimStagesRecords.map (fun r => r.stagesComputed)) = [some 4]
    ∧ envElim.findStages pElim (takeRows XElim [0, 1]) (takeVals yElim [0, 1]) = 2
    ∧ (4 : Nat) ≠ 2
    ∧ rfecv_feature_identify envElim cfgElimGrid namesElim XElim yElim pElim
        splitsElim = .error "TypeError" := by
  exact ⟨rfl, rfl, by decide, rfl⟩

/-! ## Claim C7 -/

/-- Amended C7: for every completed run, all aggregated collections
except the retained-name frame have exactly one entry per split; the
retained-name frame (`nameListAll`, built by appending a
one-row-per-name DataFrame each split) has one row per retained feature,
totalling the sum of per-split retained counts; and for every split, the
retained-name count equals the number of true entries of the support
mask (given RFECV's contract that the mask has one entry per feature
name). -/
theorem c7_amended_aggregation_shape (env : MLEnv) (cfg : RfecvCfg)
    (names : List String) (X_all : List (List ℚ)) (y_all : List ℚ)
    (p : GbcParams) (splits : List (List Nat × List Nat))
    (rs : List SplitRecord)
    (hsup : ∀ q Xtr ytr, (env.rfeSupport q Xtr ytr).length = names.length)
    (hrun : rfecv_feature_identify env cfg names X_all y_all p splits = .ok rs) :
    aggregationShapeOk splits rs := by
  have hlen := runSplits_length env cfg X_all y_all names splits p p rs hrun
  have hper : ∀ r ∈ rs, r.nameList.length = countTrue r.supPort := by
    intro r hr
    obtain ⟨n, hn⟩ := List.mem_iff_get?.mp hr
    refine runSplits_get_prop env cfg X_all y_all names
      (fun r => r.nameList.length = countTrue r.supPort) ?_ splits p p rs hrun n r hn
    intro ip gp a b r0 hr0
    obtain ⟨-, rfl⟩ := splitStep_ok_prop env cfg X_all y_all names ip gp a b r0 hr0
    exact selectNames_length _ _ (hsup _ _ _)
  unfold aggregationShapeOk
  refine ⟨?_, ?_, ?_, ?_, ?_, ?_, ?_, ?_⟩
  · simpa [optimumLengthAll] using hlen
  · simpa [classScoreAll] using hlen
  · simpa [classScoreAll2] using hlen
  · simpa [classScoreAll3] using hlen
  · simpa [featureImportancesAll] using hlen
  · simpa [rfecvGridScoresAll] using hlen
  · rw [nameListAll, List.length_flatten, List.map_map]
    refine congrArg List.sum ?_
    apply List.map_congr_left
    intro r hr
    exact hper r hr
  · rw [List.all_eq_true]
    intro r hr
    rw [beq_iff_eq]
    exact hper r hr

/-- Witness for the amended C7 at the concrete elimination run, whose
support masks have one entry per feature name. -/
theorem c7_witness :
    (rfecv_feature_identify envElim cfgElimPlain namesElim XElim yElim pElim
        splitsElim = .ok elimPlainRecords)
    ∧ aggregationShapeOk splitsElim elimPlainRecords :=
  ⟨rfl, c7_amended_aggregation_shape envElim cfgElimPlain namesElim XElim
      yElim pElim splitsElim elimPlainRecords (fun _ _ _ => rfl) rfl⟩

/-- C7 counterexample: a single completed split that retains both of two
features makes the retained-name aggregate two rows long, not one entry
per split as the claim demands of every aggregated collection. -/
theorem c7_counterexample :
    splitsElim.length = 1
    ∧ rfecv_feature_identify envElim cfgElimPlain namesElim XElim yElim pElim
        splitsElim = .ok elimPlainRecords
    ∧ (nameListAll elimPlainRecords).length = 2
    ∧ (2 : Nat) ≠ 1 := by
  exact ⟨rfl, rfl, rfl, by decide⟩
